import Mathlib

/-!
Shallow embedding of `src/FE/evolv-app/src/app.js` (the `app` React component
of the Elisha-Sani/evolv repository), restricted to the request-lifecycle
controller the specification describes: the component state cells, the
`rotateLoadingMessages` ticker, the `handleSubmit` flow, the `getScoreColor`
helper, and the render guards that decide which boxes are shown.

Modelling conventions, all taken from the source and from ECMAScript / React
semantics:
  * The component state is the tuple of `useState` cells
    (`role`, `stack`, `techIdea`, `latencyReq`, `result`, `loading`,
    `loadingText`); each `setX(v)` is modelled as a functional update of the
    corresponding field.
  * JavaScript strings are Lean `String`; the JS truthiness test `!s` on a
    string holds exactly when the string is empty, so it is modelled as
    `s = ""` (no trimming happens anywhere in the source).
  * `len` and `print` are the Jac runtime builtins (the file is Jac
    transpiler output): `len` is sequence length, `print` is console output
    (an effect with no influence on state).
  * `await Promise(resolve => { setTimeout(resolve, 800); })` calls the
    `Promise` constructor WITHOUT `new`; per ECMAScript this throws a
    `TypeError` before the executor runs, so the timer is never armed.  Inside
    an `async function` the throw is captured into the returned (rejected)
    promise.  This is modelled by `promiseCalledWithoutNew` below.
  * An `async function` body runs synchronously up to its first successful
    suspension; a rejection of an awaited promise, with no enclosing
    `try`/`catch`, rejects the async function and skips the rest of its body.
  * `handleSubmit` is split at its single suspension point
    (`await __jacSpawn(...)`): `handleSubmitSync` is everything before the
    suspension (run synchronously on invocation) and `handleSubmitAwait` is
    the continuation, applied when the spawned request settles.
-/

set_option autoImplicit false

namespace Evolv

/-- Outcome of running a piece of JavaScript code: either a normal value or a
thrown exception (carried as its message). -/
inductive JsResult (α : Type) where
  | ok (a : α) : JsResult α
  | thrown (e : String) : JsResult α
  deriving DecidableEq, Repr

/-- ECMAScript semantics of evaluating `Promise(executor)` without `new`:
the Promise constructor requires a new target, so the call throws a
`TypeError` and the executor (hence the `setTimeout`) is never invoked. -/
def promiseCalledWithoutNew : JsResult Unit :=
  .thrown "TypeError: Promise constructor cannot be invoked without new"

/-- The `messages` list of `rotateLoadingMessages` (app.js line 12). -/
def loadingMessages : List String :=
  ["Analyzing Architecture...", "Calculating Latency Risks...",
   "Evaluating Tech Stack...", "Checking for Over-Engineering..."]

/-- One assessment entry, as consumed by the render code
(`result.score`, `result.verdict`, `result.red_flags`,
`result.alternative_plan`). -/
structure Assessment where
  score : Int
  verdict : String
  red_flags : List String
  alternative_plan : String
  deriving DecidableEq, Repr

/-- The service response: `response.result` may be absent (`none`) or a
sequence of assessments.  In JS an empty array is truthy, so the guard
`response.result && len(response.result) > 0` is false both when the field is
absent and when the sequence is empty. -/
structure Response where
  result : Option (List Assessment)
  deriving DecidableEq, Repr

/-- The payload of `__jacSpawn("FeasibilityConsultant", "", {...})`
(app.js line 24): exactly four fields. -/
structure Request where
  role : String
  stack : String
  tech_idea : String
  latency_req : String
  deriving DecidableEq, Repr

/-- The component state: one field per `useState` cell of `app`. -/
structure AppState where
  role : String
  stack : String
  techIdea : String
  latencyReq : String
  result : Option Assessment
  loading : Bool
  loadingText : String
  deriving DecidableEq, Repr

/-- The initial values of the `useState` cells (app.js lines 4-10). -/
def initialState : AppState :=
  { role := "Solo Founder"
    stack := ""
    techIdea := ""
    latencyReq := "Real-time (<200ms)"
    result := none
    loading := false
    loadingText := "Analyzing Architecture..." }

/-- Execution of the `for (const msg of messages)` loop of
`rotateLoadingMessages`: for each message it performs `setLoadingText(msg)`
and then evaluates `await Promise(resolve => { setTimeout(resolve, 800); })`.
Returns the list of `setLoadingText` arguments actually issued and the
outcome of the loop. -/
def rotateLoop : List String → List String × JsResult Unit
  | [] => ([], .ok ())
  | msg :: rest =>
      match promiseCalledWithoutNew with
      | .thrown e => ([msg], .thrown e)
      | .ok _ =>
          let (texts, out) := rotateLoop rest
          (msg :: texts, out)

/-- The full run of `rotateLoadingMessages()` (app.js lines 11-19): the
`setLoadingText` effects it issues, in order, and its outcome.  Because the
`Promise` call throws before any suspension, the whole run happens
synchronously inside the call and its rejection is captured in the
(unobserved) promise the async function returns. -/
def rotateLoadingMessagesRun : List String × JsResult Unit :=
  rotateLoop loadingMessages

/-- Apply a sequence of `setLoadingText` effects to the state. -/
def applyLoadingTexts (texts : List String) (s : AppState) : AppState :=
  texts.foldl (fun st m => { st with loadingText := m }) s

/-- The `__jacSpawn` payload built by `handleSubmit` from the current state
cells: `{"role": role, "stack": stack, "tech_idea": techIdea,
"latency_req": latencyReq}`. -/
def mkRequest (s : AppState) : Request :=
  { role := s.role
    stack := s.stack
    tech_idea := s.techIdea
    latency_req := s.latencyReq }

/-- The synchronous prefix of `handleSubmit` (app.js lines 20-24), run when
the handler is invoked: `setLoading(true)`, `setResult(null)`, the
fire-and-forget `rotateLoadingMessages()` call (whose whole effect sequence is
synchronous, see `rotateLoadingMessagesRun`), and the `__jacSpawn(...)` call
whose payload is returned; the handler then suspends on the `await`. -/
def handleSubmitSync (s : AppState) : AppState × Request :=
  let s1 := { s with loading := true, result := none }
  let s2 := applyLoadingTexts rotateLoadingMessagesRun.1 s1
  (s2, mkRequest s)

/-- The guard `response.result && len(response.result) > 0` (app.js line 25):
an absent field is falsy; an empty array is truthy but has `len` zero. -/
def responseHasEntries (resp : Response) : Bool :=
  match resp.result with
  | none => false
  | some l => l.length > 0

/-- The continuation of `handleSubmit` after `await __jacSpawn(...)` resolves
with `resp` (app.js lines 25-30): if the guard holds, `setResult` to the first
entry (and `print`); in every case `setLoading(false)` runs last. -/
def handleSubmitSettle (resp : Response) (s : AppState) : AppState :=
  let s1 :=
    match resp.result with
    | some (a :: _) => { s with result := some a }
    | _ => s
  { s1 with loading := false }

/-- Settlement of the awaited `__jacSpawn` promise.  On resolution the
continuation `handleSubmitSettle` runs.  On rejection: `handleSubmit` has no
`try`/`catch`, so the rest of its body (including `setLoading(false)`) is
skipped, the state is left as it was, and the rejection escapes as the
rejection of `handleSubmit()` itself. -/
def handleSubmitAwait (outcome : JsResult Response) (s : AppState) :
    AppState × JsResult Unit :=
  match outcome with
  | .ok resp => (handleSubmitSettle resp s, .ok ())
  | .thrown e => (s, .thrown e)

/-- `getScoreColor` (app.js lines 32-39). -/
def getScoreColor (score : Int) : String :=
  if score ≥ 7 then "#10B981"
  else if score ≥ 5 then "#F59E0B"
  else "#EF4444"

/-- The `disabled` condition of the submit button (app.js line 48):
`loading || !stack || !techIdea`. -/
def submitButtonDisabled (s : AppState) : Bool :=
  s.loading || s.stack == "" || s.techIdea == ""

/-- The render guard of the loading box: `loading && __jacJsx(...)`. -/
def rendersLoadingBox (s : AppState) : Bool :=
  s.loading

/-- The render guard of the result box: `result && !loading && __jacJsx(...)`. -/
def rendersResultBox (s : AppState) : Bool :=
  s.result.isSome && !s.loading

/-- The view-state vocabulary of the specification, used to phrase claims
about the published state. -/
inductive SubmissionState where
  | Idle : SubmissionState
  | Loading (currentMessage : String) : SubmissionState
  | Succeeded (result : Assessment) : SubmissionState
  | Failed (reason : String) : SubmissionState
  deriving DecidableEq, Repr

/-- Abstraction of the component state into the view-state the render code
realises: the loading box (showing `loadingText`) is rendered exactly when
`loading` is set; otherwise the result box is rendered exactly when a result
is present; otherwise only the bare form is shown.  No branch of the render
code displays a failure. -/
def viewOf (s : AppState) : SubmissionState :=
  if s.loading then .Loading s.loadingText
  else
    match s.result with
    | some r => .Succeeded r
    | none => .Idle

/-- Primitive observable effects issued by the component code.  `cancelTimer`
stands for the host cancellation capabilities (`clearTimeout`,
`clearInterval`, aborting a pending activity); it is part of the host
vocabulary so that its absence from a trace can be stated. -/
inductive Eff where
  | setLoading (b : Bool) : Eff
  | setResult (r : Option Assessment) : Eff
  | setLoadingText (m : String) : Eff
  | spawn (req : Request) : Eff
  | consolePrint (msg : String) : Eff
  | cancelTimer : Eff
  deriving DecidableEq, Repr

/-- The complete effect trace of one `handleSubmit` invocation whose request
resolves with `resp`, in source order: `setLoading(true)`; `setResult(null)`;
the `setLoadingText` effects of the fire-and-forget rotation (synchronous,
see `rotateLoadingMessagesRun`); the `__jacSpawn` call; then, after the await
resolves, conditionally `setResult(first)` and `print`; finally
`setLoading(false)`. -/
def handleSubmitTrace (s : AppState) (resp : Response) : List Eff :=
  [Eff.setLoading true, Eff.setResult none]
    ++ rotateLoadingMessagesRun.1.map Eff.setLoadingText
    ++ [Eff.spawn (mkRequest s)]
    ++ (match resp.result with
        | some (a :: _) => [Eff.setResult (some a), Eff.consolePrint "Here are results"]
        | _ => [])
    ++ [Eff.setLoading false]

/-- A concrete valid form state (both free-text fields non-empty). -/
def sampleState : AppState :=
  { initialState with stack := "Node, Postgres",
                      techIdea := "Add a Kubernetes cluster" }

/-- A concrete non-empty service response. -/
def sampleAssessment : Assessment :=
  { score := 2
    verdict := "Overkill"
    red_flags := ["Unjustified orchestration complexity"]
    alternative_plan := "Use a scheduled function" }

/-- A concrete resolved response with one entry. -/
def sampleResponse : Response := { result := some [sampleAssessment] }

/-- A concrete resolved response with an empty entry sequence. -/
def emptyResponse : Response := { result := some [] }

/-- A concrete state whose `stack` field is empty (and `techIdea` is not). -/
def emptyStackState : AppState :=
  { initialState with techIdea := "Add a Kubernetes cluster" }

/-- Whether a view-state is a failure view.  No branch of the render code in
`app` displays a failure, so this is provably never reached by `viewOf`. -/
def isFailedView : SubmissionState → Bool
  | .Failed _ => true
  | _ => false

end Evolv

namespace Evolv

/-- C7: for every integer score, `getScoreColor` returns the success color
`#10B981` when `score >= 7`, the warning color `#F59E0B` when
`5 <= score < 7`, and the danger color `#EF4444` when `score < 5`; in
particular at 9, 7, 6, 5 and 3 it returns success, success, warning, warning
and danger respectively. -/
theorem getScoreColor_spec (score : Int) :
    (7 ≤ score → getScoreColor score = "#10B981") ∧
    (5 ≤ score ∧ score < 7 → getScoreColor score = "#F59E0B") ∧
    (score < 5 → getScoreColor score = "#EF4444") ∧
    getScoreColor 9 = "#10B981" ∧ getScoreColor 7 = "#10B981" ∧
    getScoreColor 6 = "#F59E0B" ∧ getScoreColor 5 = "#F59E0B" ∧
    getScoreColor 3 = "#EF4444" := by
  refine ⟨?_, ?_, ?_, by decide, by decide, by decide, by decide, by decide⟩
  · intro h
    simp [getScoreColor, h]
  · rintro ⟨h5, h7⟩
    have : ¬ (7 ≤ score) := by omega
    simp [getScoreColor, this, h5]
  · intro h
    have h7 : ¬ (7 ≤ score) := by omega
    have h5 : ¬ (5 ≤ score) := by omega
    simp [getScoreColor, h7, h5]

/-- Witness for `getScoreColor_spec`: each guarded branch discharged at a
concrete score. -/
theorem getScoreColor_spec_witness :
    getScoreColor 9 = "#10B981" ∧ getScoreColor 6 = "#F59E0B" ∧
    getScoreColor 3 = "#EF4444" :=
  ⟨(getScoreColor_spec 9).1 (by decide),
   (getScoreColor_spec 6).2.1 ⟨by decide, by decide⟩,
   (getScoreColor_spec 3).2.2.1 (by decide)⟩

/-- C6 (code evaluated at the failing input): the first iteration of the
rotation loop performs `setLoadingText("Analyzing Architecture...")` and then
evaluates `Promise(resolve => { setTimeout(resolve, 800); })`, which throws a
`TypeError` because `Promise` is called without `new`; the rotation therefore
issues only the first message and aborts — it never advances to the second,
third or fourth message and never arms an 800ms timer. -/
theorem rotation_aborts_after_first_message :
    rotateLoadingMessagesRun.1 = ["Analyzing Architecture..."] ∧
    rotateLoadingMessagesRun.2 =
      JsResult.thrown "TypeError: Promise constructor cannot be invoked without new" := by
  constructor <;> rfl

/-- C8: for every state whose `stack` and `techIdea` are non-empty (a valid
form), invoking `handleSubmit` synchronously (before any settlement) sets
`loading` to true, discards any prior result, and leaves `loadingText` at the
first rotation message, so the published view is
`Loading "Analyzing Architecture..."`. -/
theorem submit_sets_loading_first_message (s : AppState)
    (hstack : s.stack ≠ "") (hidea : s.techIdea ≠ "") :
    ((handleSubmitSync s).1).loading = true ∧
    ((handleSubmitSync s).1).result = none ∧
    ((handleSubmitSync s).1).loadingText = "Analyzing Architecture..." ∧
    loadingMessages.head? = some "Analyzing Architecture..." ∧
    viewOf (handleSubmitSync s).1 =
      SubmissionState.Loading "Analyzing Architecture..." := by
  refine ⟨rfl, rfl, rfl, rfl, ?_⟩
  simp [handleSubmitSync, applyLoadingTexts, rotateLoadingMessagesRun,
    rotateLoop, loadingMessages, promiseCalledWithoutNew, viewOf]

/-- Witness for `submit_sets_loading_first_message` at a concrete valid
state. -/
theorem submit_sets_loading_first_message_witness :
    ((handleSubmitSync sampleState).1).loading = true ∧
    ((handleSubmitSync sampleState).1).result = none ∧
    ((handleSubmitSync sampleState).1).loadingText = "Analyzing Architecture..." ∧
    loadingMessages.head? = some "Analyzing Architecture..." ∧
    viewOf (handleSubmitSync sampleState).1 =
      SubmissionState.Loading "Analyzing Architecture..." :=
  submit_sets_loading_first_message sampleState (by decide) (by decide)

/-- C9: for every state, the payload `handleSubmit` hands to `__jacSpawn` has
exactly the four fields `role`, `stack`, `tech_idea`, `latency_req`,
populated from the form cells `role`, `stack`, `techIdea`, `latencyReq`
respectively (exactness is enforced by the `Request` record type). -/
theorem request_fields (s : AppState) :
    ((handleSubmitSync s).2).role = s.role ∧
    ((handleSubmitSync s).2).stack = s.stack ∧
    ((handleSubmitSync s).2).tech_idea = s.techIdea ∧
    ((handleSubmitSync s).2).latency_req = s.latencyReq :=
  ⟨rfl, rfl, rfl, rfl⟩

/-- C10: whenever the spawned request resolves (does not throw), the
submission ends with `loading = false`, and when the resolved response has no
entries the final view is `Idle` — the non-loading pre-submit appearance with
the previous result cleared. -/
theorem resolved_clears_loading (s : AppState) (resp : Response) :
    ((handleSubmitAwait (JsResult.ok resp) (handleSubmitSync s).1).1).loading = false ∧
    (responseHasEntries resp = false →
      viewOf (handleSubmitAwait (JsResult.ok resp) (handleSubmitSync s).1).1 =
        SubmissionState.Idle) := by
  constructor
  · rfl
  · intro h
    rcases hres : resp.result with _ | l
    · simp [handleSubmitAwait, handleSubmitSettle, hres, viewOf, handleSubmitSync,
        applyLoadingTexts, rotateLoadingMessagesRun, rotateLoop, loadingMessages,
        promiseCalledWithoutNew]
    · rcases l with _ | ⟨a, rest⟩
      · simp [handleSubmitAwait, handleSubmitSettle, hres, viewOf, handleSubmitSync,
          applyLoadingTexts, rotateLoadingMessagesRun, rotateLoop, loadingMessages,
          promiseCalledWithoutNew]
      · exfalso
        simp [responseHasEntries, hres] at h

/-- Witness for `resolved_clears_loading` at a concrete state and the empty
response. -/
theorem resolved_clears_loading_witness :
    ((handleSubmitAwait (JsResult.ok emptyResponse)
        (handleSubmitSync sampleState).1).1).loading = false ∧
    viewOf (handleSubmitAwait (JsResult.ok emptyResponse)
        (handleSubmitSync sampleState).1).1 = SubmissionState.Idle :=
  ⟨(resolved_clears_loading sampleState emptyResponse).1,
   (resolved_clears_loading sampleState emptyResponse).2 (by decide)⟩

/-- Helper: `handleSubmitSync` is idempotent on the state component — a
second invocation while the first is in flight re-applies the same updates
(`loading := true`, `result := none`, `loadingText := first message`). -/
theorem handleSubmitSync_state_idem (s : AppState) :
    (handleSubmitSync (handleSubmitSync s).1).1 = (handleSubmitSync s).1 := by
  simp [handleSubmitSync, applyLoadingTexts, rotateLoadingMessagesRun,
    rotateLoop, loadingMessages, promiseCalledWithoutNew]

/-- C1 (counterexample): submission A is issued from a valid state, then
submission B is issued while A is in flight, then A's response (one entry)
arrives.  A's response, although superseded, changes the published view from
`Loading` to `Succeeded`: the code has no staleness check. -/
theorem stale_response_mutates_state :
    viewOf (handleSubmitSync (handleSubmitSync sampleState).1).1 =
      SubmissionState.Loading "Analyzing Architecture..." ∧
    viewOf (handleSubmitAwait (JsResult.ok sampleResponse)
        (handleSubmitSync (handleSubmitSync sampleState).1).1).1 =
      SubmissionState.Succeeded sampleAssessment ∧
    ((handleSubmitAwait (JsResult.ok sampleResponse)
        (handleSubmitSync (handleSubmitSync sampleState).1).1).1 ==
      (handleSubmitSync (handleSubmitSync sampleState).1).1) = false := by
  refine ⟨by decide, by decide, by decide⟩

/-- C1 (amended): the controller has no supersession mechanism.  A superseded
submission's response is applied exactly as a fresh one's would be (settling
after two submits equals settling after one), it always transitions the state
out of `Loading` (`loading` becomes false); overlapping submissions are only
prevented at the UI boundary, the submit button being disabled while
`loading` is set. -/
theorem stale_response_applied_as_fresh (s : AppState) (resp : Response) :
    handleSubmitAwait (JsResult.ok resp) (handleSubmitSync (handleSubmitSync s).1).1 =
      handleSubmitAwait (JsResult.ok resp) (handleSubmitSync s).1 ∧
    ((handleSubmitAwait (JsResult.ok resp)
        (handleSubmitSync (handleSubmitSync s).1).1).1).loading = false ∧
    submitButtonDisabled (handleSubmitSync s).1 = true := by
  refine ⟨?_, ?_, ?_⟩
  · rw [handleSubmitSync_state_idem]
  · rfl
  · simp [submitButtonDisabled, handleSubmitSync, applyLoadingTexts,
      rotateLoadingMessagesRun, rotateLoop, loadingMessages, promiseCalledWithoutNew]

/-- C2 (counterexample): a response with an empty result sequence settles a
valid submission into the `Idle` view (no result, not loading) — not into
`Failed "empty response"`, which no branch of the code can produce. -/
theorem empty_response_not_failed :
    viewOf (handleSubmitSettle emptyResponse (handleSubmitSync sampleState).1) =
      SubmissionState.Idle ∧
    (viewOf (handleSubmitSettle emptyResponse (handleSubmitSync sampleState).1) ==
      SubmissionState.Failed "empty response") = false := by
  refine ⟨by decide, by decide⟩

/-- C2 (amended): a response with no entries settles the submission into the
`Idle` (pre-submit, non-loading, no-result) view — never `Succeeded`; and no
reachable view is ever a `Failed` view, because the render code has no
failure branch at all. -/
theorem empty_response_goes_idle (s : AppState) (resp : Response) :
    (responseHasEntries resp = false →
      viewOf (handleSubmitSettle resp (handleSubmitSync s).1) =
        SubmissionState.Idle) ∧
    (∀ st : AppState, isFailedView (viewOf st) = false) := by
  constructor
  · intro h
    rcases hres : resp.result with _ | l
    · simp [handleSubmitSettle, hres, viewOf, handleSubmitSync, applyLoadingTexts,
        rotateLoadingMessagesRun, rotateLoop, loadingMessages, promiseCalledWithoutNew]
    · rcases l with _ | ⟨a, rest⟩
      · simp [handleSubmitSettle, hres, viewOf, handleSubmitSync, applyLoadingTexts,
          rotateLoadingMessagesRun, rotateLoop, loadingMessages, promiseCalledWithoutNew]
      · exfalso
        simp [responseHasEntries, hres] at h
  · intro st
    rcases st with ⟨_, _, _, _, res, load, txt⟩
    cases load <;> cases res <;> rfl

/-- Witness for `empty_response_goes_idle` at a concrete state and the empty
response. -/
theorem empty_response_goes_idle_witness :
    viewOf (handleSubmitSettle emptyResponse (handleSubmitSync initialState).1) =
      SubmissionState.Idle :=
  (empty_response_goes_idle initialState emptyResponse).1 (by decide)

/-- C3 (counterexample): invoking the submit handler on a state whose `stack`
is empty is not a no-op: it sets `loading` to true (hence changes the state)
and it builds and issues the spawn request. -/
theorem submit_with_empty_stack_not_noop :
    ((handleSubmitSync emptyStackState).1).loading = true ∧
    ((handleSubmitSync emptyStackState).1 == emptyStackState) = false ∧
    (handleSubmitSync emptyStackState).2 =
      { role := "Solo Founder", stack := "",
        tech_idea := "Add a Kubernetes cluster",
        latency_req := "Real-time (<200ms)" } := by
  refine ⟨by decide, by decide, by decide⟩

/-- C3 (amended): when `stack` or `techIdea` is the empty string (exact
emptiness — the source does not trim), the submit button is rendered
disabled, so the handler cannot be invoked through the UI; the handler itself
performs no validation: invoked anyway, it sets `loading` and issues the
request built from the current fields. -/
theorem invalid_submit_button_disabled (s : AppState)
    (h : s.stack = "" ∨ s.techIdea = "") :
    submitButtonDisabled s = true ∧
    ((handleSubmitSync s).1).loading = true ∧
    (handleSubmitSync s).2 = mkRequest s := by
  refine ⟨?_, rfl, rfl⟩
  rcases h with h | h <;> simp [submitButtonDisabled, h]

/-- Witness for `invalid_submit_button_disabled` at a concrete state with an
empty `stack`. -/
theorem invalid_submit_button_disabled_witness :
    submitButtonDisabled emptyStackState = true ∧
    ((handleSubmitSync emptyStackState).1).loading = true ∧
    (handleSubmitSync emptyStackState).2 = mkRequest emptyStackState :=
  invalid_submit_button_disabled emptyStackState (Or.inl (by decide))

/-- C4 (counterexample): the effect trace of a complete submission (request
resolving with one entry) publishes the terminal state (`setLoading(false)`
occurs in it) but contains no cancellation of the rotation activity: the code
never cancels any timer or pending activity. -/
theorem no_cancellation_in_submit_trace :
    ((handleSubmitTrace sampleState sampleResponse).contains Eff.cancelTimer) = false ∧
    ((handleSubmitTrace sampleState sampleResponse).contains (Eff.setLoading false)) = true := by
  refine ⟨by decide, by decide⟩

/-- C4 (amended): the rotation activity is never cancelled — no submission
trace contains a cancellation effect; the rendered view nonetheless never
shows the loading/rotation message at the same time as a result, because the
loading box is rendered exactly when `loading` is true and the result box
only when `loading` is false. -/
theorem loading_and_result_never_rendered_together (s : AppState) (resp : Response) :
    ((handleSubmitTrace s resp).contains Eff.cancelTimer) = false ∧
    (∀ st : AppState, (rendersLoadingBox st && rendersResultBox st) = false) := by
  constructor
  · rcases hres : resp.result with _ | l
    · simp [handleSubmitTrace, hres, rotateLoadingMessagesRun, rotateLoop,
        loadingMessages, promiseCalledWithoutNew, List.contains]
    · rcases l with _ | ⟨a, rest⟩ <;>
        simp [handleSubmitTrace, hres, rotateLoadingMessagesRun, rotateLoop,
          loadingMessages, promiseCalledWithoutNew, List.contains]
  · intro st
    cases h : st.loading <;> simp [rendersLoadingBox, rendersResultBox, h]

/-- C5 (counterexample): when the awaited spawn rejects (e.g. a network
error), the state is left exactly as the synchronous prefix set it —
`loading` remains true, the view stays `Loading`, no `Failed` view appears —
and the rejection escapes the handler as its own rejection. -/
theorem request_error_leaves_loading :
    ((handleSubmitAwait (JsResult.thrown "NetworkError")
        (handleSubmitSync sampleState).1).1).loading = true ∧
    (viewOf (handleSubmitAwait (JsResult.thrown "NetworkError")
        (handleSubmitSync sampleState).1).1 ==
      SubmissionState.Failed "NetworkError") = false ∧
    (handleSubmitAwait (JsResult.thrown "NetworkError")
        (handleSubmitSync sampleState).1).2 = JsResult.thrown "NetworkError" := by
  refine ⟨by decide, by decide, by decide⟩

/-- C5 (amended): on request rejection the controller performs no transition
at all: the state after the rejection equals the state the synchronous prefix
left (so the view remains `Loading "Analyzing Architecture..."` forever), no
`Failed` state exists, and the error escapes the handler boundary as the
rejection of `handleSubmit()` (there is no `try`/`catch`). -/
theorem request_error_stuck_loading (s : AppState) (e : String) :
    (handleSubmitAwait (JsResult.thrown e) (handleSubmitSync s).1).1 =
      (handleSubmitSync s).1 ∧
    viewOf (handleSubmitAwait (JsResult.thrown e) (handleSubmitSync s).1).1 =
      SubmissionState.Loading "Analyzing Architecture..." ∧
    (handleSubmitAwait (JsResult.thrown e) (handleSubmitSync s).1).2 =
      JsResult.thrown e := by
  refine ⟨rfl, ?_, rfl⟩
  simp [handleSubmitAwait, handleSubmitSync, applyLoadingTexts,
    rotateLoadingMessagesRun, rotateLoop, loadingMessages,
    promiseCalledWithoutNew, viewOf]

end Evolv
